import Mathlib

/-!
Verification of the crop-zone interaction engine (Cropper component) of the
tui.image-editor fork. Numeric values (canvas coordinates, sizes, ratios)
are modelled as exact rationals. Absent/optional JavaScript values are
modelled with `Option`; a JavaScript runtime exception (such as a property
access on `null`) is modelled with `Except`.
-/

/-- Modelled from the spec: `clamp` from `@/util` is not under src/.
The spec (section 4.1) uses it as the usual clamp of a value into an interval,
for example `left = clamp(current.x, 0, anchor.x)`. -/
def clamp (v lo hi : ℚ) : ℚ := max lo (min v hi)

/-- Modelled from the spec: `fixFloatingPoint` from `@/util` is not under src/.
The spec (section 4.1) says floating-point results are normalized to avoid
sub-pixel drift (rounded to a stable precision). Over exact rational
arithmetic there is no drift to normalize, so it is the identity. -/
def fixFloatingPoint (q : ℚ) : ℚ := q

/-- JavaScript double-bitwise-not truncation as used in the source as a
truncation toward zero of a finite number. -/
def jsTrunc (q : ℚ) : ℤ := if 0 ≤ q then ⌊q⌋ else ⌈q⌉

/-- Modelled from the spec: `keyCodes.SHIFT` from `@/consts` is not under src/;
it is the standard DOM key code of the shift key. -/
def SHIFT : Nat := 16

/-- `MOUSE_MOVE_THRESHOLD` from the source: the Manhattan-distance gesture
threshold a drag must exceed before the cropzone updates. -/
def MOUSE_MOVE_THRESHOLD : ℚ := 10

/-- The `{left, top, width, height}` settings object returned by
`_calcRectDimensionFromPoint` (it carries no preset-ratio key). -/
structure DragSettings where
  left : ℚ
  top : ℚ
  width : ℚ
  height : ℚ
deriving DecidableEq

/-- The settings object returned by `_getPresetPropertiesForCropSize`,
`_getDefaultCropSize` and `_getPresetProperties`: geometry plus a
`presetRatio` key whose JavaScript value may be `null` (modelled `none`). -/
structure CropSettings where
  presetRatio : Option ℚ
  left : ℚ
  top : ℚ
  width : ℚ
  height : ℚ
deriving DecidableEq

/-- The cropzone overlay object: the mutable fields of the Cropzone that the
Cropper component reads and writes. -/
structure Cropzone where
  presetRatio : Option ℚ
  left : ℚ
  top : ℚ
  width : ℚ
  height : ℚ
deriving DecidableEq

/-- Modelled from the spec: `Cropzone.isValid` from `@/extension/cropzone` is
not under src/. The spec (section 3) says a crop zone is valid only if
`width > 0 and height > 0`. -/
def Cropzone.isValid (z : Cropzone) : Bool :=
  decide (0 < z.width) && decide (0 < z.height)

/-- The partial `{left, top, width, height}` position object accepted by
`setCropzonePosition`; every field may be absent. -/
structure PosInfo where
  left : Option ℚ
  top : Option ℚ
  width : Option ℚ
  height : Option ℚ
deriving DecidableEq

/-- The optional `graphics.defaultOptions.crop` object consulted by
`_getDefaultCropSize`; its width/height fields may be absent. -/
structure CropDefaults where
  width : Option ℚ
  height : Option ℚ
deriving DecidableEq

/-- `_calcRectDimensionFromPoint(x, y)` from the source, with the implicit
inputs (`this._startX`, `this._startY`, the canvas size and
`this._withShiftKey`) made explicit. The two in-place mutations of
`width`/`height` and of `left`/`top` in the shift branch are modelled by
the rebindings in the `true` branch; `left` is recomputed from the already
updated `width`, exactly as in the source. -/
def _calcRectDimensionFromPoint (x y startX startY canvasWidth canvasHeight : ℚ)
    (withShiftKey : Bool) : DragSettings :=
  let left := clamp x 0 startX
  let top := clamp y 0 startY
  let width := clamp x startX canvasWidth - left
  let height := clamp y startY canvasHeight - top
  if withShiftKey then
    let height1 := if width > height then width else height
    let width1 := if height > width then height else width
    let left1 := if startX ≥ x then startX - width1 else left
    let top1 := if startY ≥ y then startY - height1 else top
    ⟨left1, top1, width1, height1⟩
  else
    ⟨left, top, width, height⟩

/-- The spec's reference definition of the drag geometry (`rectFromDrag`,
section 4.1), written from the spec's words: clamp formulas for the unlocked
case; with aspect lock, grow the smaller of width/height to the larger, then
re-derive an axis's origin as anchor minus size when the pointer is at or
before the anchor on that axis. -/
def rectFromDragSpec (x y ax ay maxWidth maxHeight : ℚ) (aspectLocked : Bool) : DragSettings :=
  let left := clamp x 0 ax
  let top := clamp y 0 ay
  let width := clamp x ax maxWidth - left
  let height := clamp y ay maxHeight - top
  if aspectLocked then
    let size := max width height
    ⟨if x ≤ ax then ax - size else left,
     if y ≤ ay then ay - size else top,
     size, size⟩
  else
    ⟨left, top, width, height⟩

/-- The local `getScale` helper of `_getPresetPropertiesForCropSize`. -/
def getScale (value orignalValue : ℚ) : ℚ :=
  if value > orignalValue then orignalValue / value else 1

/-- `_getPresetPropertiesForCropSize(presetRatio)` from the source, with the
canvas size explicit. The two `map` passes over `[width, height]` are the
two pairs of rebindings. -/
def _getPresetPropertiesForCropSize (presetRatio originalWidth originalHeight : ℚ) :
    CropSettings :=
  let standardSize := if originalWidth ≥ originalHeight then originalWidth else originalHeight
  let width := standardSize * presetRatio
  let height := standardSize
  let scaleWidth := getScale width originalWidth
  let width1 := width * scaleWidth
  let height1 := height * scaleWidth
  let scaleHeight := getScale height1 originalHeight
  let width2 := fixFloatingPoint (width1 * scaleHeight)
  let height2 := fixFloatingPoint (height1 * scaleHeight)
  { presetRatio := some presetRatio
    top := (originalHeight - height2) / 2
    left := (originalWidth - width2) / 2
    width := width2
    height := height2 }

/-- `_getDefaultCropSize()` from the source, with the canvas size and the
optional `graphics.defaultOptions.crop` object explicit. `extend` keeps a
present field of the crop defaults and otherwise falls back to the canvas
size; the returned object extends `DEFAULT_OPTION`, whose `presetRatio` is
`null`. -/
def _getDefaultCropSize (maxWidth maxHeight : ℚ) (cropDefaults : Option CropDefaults) :
    CropSettings :=
  let d := cropDefaults.getD ⟨none, none⟩
  let dw := d.width.getD maxWidth
  let dh := d.height.getD maxHeight
  let width := if dw > maxWidth ∨ dh > maxHeight then (jsTrunc (maxWidth * (3 / 4)) : ℚ) else dw
  let height := if dw > maxWidth ∨ dh > maxHeight then (jsTrunc (maxHeight * (3 / 4)) : ℚ) else dh
  { presetRatio := none
    left := (maxWidth - width) / 2
    top := (maxHeight - height) / 2
    width := width
    height := height }

/-- JavaScript truthiness of the optional numeric `presetRatio` argument of
`setCropzoneRect`: absent (`undefined`) and `0` are falsy. -/
def jsTruthy (q : Option ℚ) : Bool :=
  match q with
  | none => false
  | some r => decide (r ≠ 0)

/-- The settings chosen by `setCropzoneRect(presetRatio)`: the preset branch
when the ratio is truthy, the default crop size otherwise. -/
def setCropzoneRectSettings (presetRatio : Option ℚ) (maxWidth maxHeight : ℚ)
    (cropDefaults : Option CropDefaults) : CropSettings :=
  if jsTruthy presetRatio then
    _getPresetPropertiesForCropSize (presetRatio.getD 0) maxWidth maxHeight
  else
    _getDefaultCropSize maxWidth maxHeight cropDefaults

/-- `_getPresetProperties(posInfo)` from the source, with the canvas size
explicit: spread defaults, then clamp. Note that both the width bound and
the height bound subtract the destructured `left`. -/
def _getPresetProperties (posInfo : Option PosInfo) (originalWidth originalHeight : ℚ) :
    CropSettings :=
  let p := posInfo.getD ⟨none, none, none, none⟩
  let left := p.left.getD 0
  let top := p.top.getD 0
  let width := p.width.getD originalWidth
  let height := p.height.getD originalHeight
  { presetRatio := some (width / height)
    top := max top 0
    left := max left 0
    width := min width (originalWidth - left)
    height := min height (originalHeight - left) }

/-- `getCropzoneRect()` from the source. `this._cropzone` may be `null`, and
the source calls `cropzone.isValid()` without a null check, so the absent
case is a thrown TypeError, modelled as `Except.error`. -/
def getCropzoneRect (cropzone : Option Cropzone) : Except Unit (Option DragSettings) :=
  match cropzone with
  | none => Except.error ()
  | some z =>
    if z.isValid then
      Except.ok (some ⟨z.left, z.top, z.width, z.height⟩)
    else
      Except.ok none

/-- `cropzone.set(settings)` for a drag settings object: the object carries
only geometry keys, so the merge leaves `presetRatio` untouched. -/
def applyDragSettings (z : Cropzone) (s : DragSettings) : Cropzone :=
  { z with left := s.left, top := s.top, width := s.width, height := s.height }

/-- `cropzone.set(settings)` for a crop settings object: the object carries a
`presetRatio` key as well, so every field is overwritten. -/
def applyCropSettings (z : Cropzone) (s : CropSettings) : Cropzone :=
  { z with
    presetRatio := s.presetRatio
    left := s.left
    top := s.top
    width := s.width
    height := s.height }

/-- A recorded invocation of the `updateUI` action of the crop action table
(`_runAction('updateUI', settings)`), with the settings payload it carries. -/
inductive UIEvent
  | fromDrag : DragSettings → UIEvent
  | fromCrop : CropSettings → UIEvent
deriving DecidableEq

/-- `_onFabricMouseMove` from the source, restricted to its effect on the
cropzone and the `updateUI` invocations it performs: past the Manhattan
threshold it recomputes the rectangle, applies it to the zone and notifies
`updateUI`; otherwise it does nothing. -/
def onFabricMouseMoveRun (z : Cropzone) (startX startY x y canvasWidth canvasHeight : ℚ)
    (withShiftKey : Bool) : Cropzone × List UIEvent :=
  if |x - startX| + |y - startY| > MOUSE_MOVE_THRESHOLD then
    let settings := _calcRectDimensionFromPoint x y startX startY canvasWidth canvasHeight
      withShiftKey
    (applyDragSettings z settings, [UIEvent.fromDrag settings])
  else
    (z, [])

/-- `setCropzoneRect(presetRatio)` from the source, restricted to its effect
on the cropzone and the `updateUI` invocations it performs. -/
def setCropzoneRectRun (z : Cropzone) (presetRatio : Option ℚ) (maxWidth maxHeight : ℚ)
    (cropDefaults : Option CropDefaults) : Cropzone × List UIEvent :=
  let settings := setCropzoneRectSettings presetRatio maxWidth maxHeight cropDefaults
  (applyCropSettings z settings, [UIEvent.fromCrop settings])

/-- `setCropzonePosition(posInfo)` from the source, restricted to its effect
on the cropzone and the `updateUI` invocations it performs: it applies
`_getPresetProperties(posInfo)` and runs no action. -/
def setCropzonePosition (z : Cropzone) (posInfo : Option PosInfo)
    (maxWidth maxHeight : ℚ) : Cropzone × List UIEvent :=
  (applyCropSettings z (_getPresetProperties posInfo maxWidth maxHeight), [])

/-- The session state of the Cropper that the listener lifecycle touches:
whether a cropzone exists, the drag anchor, the shift flag, and whether each
of the five handlers is currently registered (`mouse:down`, `mouse:move`,
`mouse:up` on the canvas; `keydown`, `keyup` on the document). -/
structure CropperState where
  czExists : Bool
  startX : Option ℚ
  startY : Option ℚ
  withShiftKey : Bool
  lMouseDown : Bool
  lMouseMove : Bool
  lMouseUp : Bool
  lKeyDown : Bool
  lKeyUp : Bool
deriving DecidableEq

/-- The state set up by the constructor: no cropzone, no anchor, shift flag
false, no listener registered. -/
def initState : CropperState :=
  ⟨false, none, none, false, false, false, false, false, false⟩

/-- The external events delivered to the Cropper: the `start`/`end` lifecycle
calls (`end` is spelled `end'` because it is reserved), pointer events (a
mouse-down carries whether it hit empty canvas and its canvas coordinates),
and document key events carrying a key code. -/
inductive Ev
  | start
  | end'
  | mousedown (targetEmpty : Bool) (x y : ℚ)
  | mousemove
  | mouseup
  | keydown (code : Nat)
  | keyup (code : Nat)
deriving DecidableEq

/-- One event step of the Cropper, from the source: `start()` registers
`mouse:down`, `keydown`, `keyup` (guarded on no existing zone); `end()`
removes exactly those three (guarded on an existing zone);
`_onFabricMouseDown` records the anchor and registers `mouse:move` and
`mouse:up` when the press hits empty canvas; `_onFabricMouseUp` removes
those two; the key handlers toggle the shift flag on `keyCodes.SHIFT`.
A handler only runs while it is registered. -/
def step (s : CropperState) : Ev → CropperState
  | Ev.start =>
    if s.czExists then s
    else { s with czExists := true, lMouseDown := true, lKeyDown := true, lKeyUp := true }
  | Ev.end' =>
    if s.czExists then
      { s with czExists := false, lMouseDown := false, lKeyDown := false, lKeyUp := false }
    else s
  | Ev.mousedown targetEmpty x y =>
    if s.lMouseDown ∧ targetEmpty then
      { s with startX := some x, startY := some y, lMouseMove := true, lMouseUp := true }
    else s
  | Ev.mousemove => s
  | Ev.mouseup =>
    if s.lMouseUp then { s with lMouseMove := false, lMouseUp := false } else s
  | Ev.keydown code =>
    if s.lKeyDown ∧ code = SHIFT then { s with withShiftKey := true } else s
  | Ev.keyup code =>
    if s.lKeyUp ∧ code = SHIFT then { s with withShiftKey := false } else s

/-- Run a whole event sequence from a state. -/
def run (s : CropperState) (evs : List Ev) : CropperState :=
  evs.foldl step s

/-- Structural invariant of every reachable Cropper state: the three
listeners installed by `start()` are registered exactly while a cropzone
exists, and the `mouse:move` and `mouse:up` listeners are registered
together. -/
def ReachInv (s : CropperState) : Prop :=
  s.lMouseDown = s.czExists ∧ s.lKeyDown = s.czExists ∧ s.lKeyUp = s.czExists ∧
    s.lMouseMove = s.lMouseUp

theorem reachInv_init : ReachInv initState := by
  refine ⟨rfl, rfl, rfl, rfl⟩

theorem reachInv_step (s : CropperState) (e : Ev) (h : ReachInv s) : ReachInv (step s e) := by
  obtain ⟨h1, h2, h3, h4⟩ := h
  cases e <;> simp only [step] <;> (try split) <;> simp_all [ReachInv]

theorem reachInv_run (s : CropperState) (evs : List Ev) (h : ReachInv s) :
    ReachInv (run s evs) := by
  induction evs generalizing s with
  | nil => exact h
  | cons e tl ih => exact ih (step s e) (reachInv_step s e h)

theorem run_append (s : CropperState) (l1 l2 : List Ev) :
    run s (l1 ++ l2) = run (run s l1) l2 := by
  simp [run, List.foldl_append]

theorem end_clears_session_listeners (s : CropperState) (h : ReachInv s) :
    (step s Ev.end').lMouseDown = false ∧ (step s Ev.end').lKeyDown = false ∧
      (step s Ev.end').lKeyUp = false ∧
      (step s Ev.end').lMouseMove = s.lMouseMove ∧ (step s Ev.end').lMouseUp = s.lMouseUp := by
  obtain ⟨h1, h2, h3, h4⟩ := h
  simp only [step]
  split <;> simp_all

theorem mouseup_clears_drag_listeners (s : CropperState) (h : ReachInv s) :
    (step s Ev.mouseup).lMouseMove = false ∧ (step s Ev.mouseup).lMouseUp = false ∧
      ReachInv (step s Ev.mouseup) := by
  have hinv := reachInv_step s Ev.mouseup h
  obtain ⟨h1, h2, h3, h4⟩ := h
  simp only [step] at hinv ⊢
  split <;> simp_all [ReachInv]

/-- C6 counterexample: starting a session, pressing the mouse on empty canvas
and then ending the session leaves the `mouse:move` and `mouse:up` handlers
registered, so a listener registered during the session survives `end()`. -/
theorem c6_counterexample :
    (run initState [Ev.start, Ev.mousedown true 0 0, Ev.end']).lMouseMove = true ∧
      (run initState [Ev.start, Ev.mousedown true 0 0, Ev.end']).lMouseUp = true := by
  decide

/-- C6 amended: `end()` removes exactly the listeners `start()` installed
(`mouse:down`, `keydown`, `keyup`); the `mouse:move`/`mouse:up` listeners
installed by a mouse-down are removed by the matching mouse-up, not by
`end()`, so after any event sequence followed by a mouse-up and then `end()`
no session listener remains registered. -/
theorem c6_amended (evs : List Ev) :
    ((run initState (evs ++ [Ev.end'])).lMouseDown = false ∧
      (run initState (evs ++ [Ev.end'])).lKeyDown = false ∧
      (run initState (evs ++ [Ev.end'])).lKeyUp = false) ∧
    ((run initState (evs ++ [Ev.mouseup, Ev.end'])).lMouseDown = false ∧
      (run initState (evs ++ [Ev.mouseup, Ev.end'])).lMouseMove = false ∧
      (run initState (evs ++ [Ev.mouseup, Ev.end'])).lMouseUp = false ∧
      (run initState (evs ++ [Ev.mouseup, Ev.end'])).lKeyDown = false ∧
      (run initState (evs ++ [Ev.mouseup, Ev.end'])).lKeyUp = false) := by
  have hinv : ReachInv (run initState evs) := reachInv_run initState evs reachInv_init
  constructor
  · rw [run_append]
    have h1 := end_clears_session_listeners (run initState evs) hinv
    simpa [run] using ⟨h1.1, h1.2.1, h1.2.2.1⟩
  · rw [run_append]
    have hup := mouseup_clears_drag_listeners (run initState evs) hinv
    have hend := end_clears_session_listeners (step (run initState evs) Ev.mouseup) hup.2.2
    have : run (run initState evs) [Ev.mouseup, Ev.end'] =
        step (step (run initState evs) Ev.mouseup) Ev.end' := rfl
    rw [this]
    exact ⟨hend.1, by rw [hend.2.2.2.1]; exact hup.1, by rw [hend.2.2.2.2]; exact hup.2.1,
      hend.2.1, hend.2.2.1⟩

/-- C9 counterexample: holding shift (keydown of the shift key code) during a
session and then calling `end()` leaves the aspect-lock flag set to true:
`end()` does not reset it, so it persists into the next session. -/
theorem c9_counterexample :
    (run initState [Ev.start, Ev.keydown SHIFT, Ev.end']).withShiftKey = true := by
  decide

/-- C9 amended: the aspect-lock flag is false by default (constructor state),
but `end()` leaves it unchanged rather than resetting it, so whatever value
it has when the session ends persists. -/
theorem c9_amended :
    initState.withShiftKey = false ∧
      ∀ s : CropperState, (step s Ev.end').withShiftKey = s.withShiftKey := by
  refine ⟨rfl, fun s => ?_⟩
  simp only [step]
  split <;> rfl

/-- C2 counterexample: when no cropzone exists (`this._cropzone` is null),
`getCropzoneRect()` dereferences null (`cropzone.isValid()`), so the call
throws a TypeError instead of returning null. -/
theorem c2_counterexample :
    getCropzoneRect none = Except.error () ∧ getCropzoneRect none ≠ Except.ok none :=
  ⟨rfl, fun h => Except.noConfusion h⟩

/-- C2 amended: when a cropzone exists, a zero-area (invalid) zone yields
null and a valid zone yields its left/top/width/height, without throwing;
when no cropzone exists the query throws instead of returning null. -/
theorem c2_amended (z : Cropzone) :
    (z.width = 0 ∨ z.height = 0 → getCropzoneRect (some z) = Except.ok none) ∧
    (0 < z.width → 0 < z.height →
      getCropzoneRect (some z) = Except.ok (some ⟨z.left, z.top, z.width, z.height⟩)) ∧
    getCropzoneRect none = Except.error () := by
  refine ⟨?_, ?_, rfl⟩
  · rintro (h | h) <;> simp [getCropzoneRect, Cropzone.isValid, h]
  · intro h1 h2
    simp [getCropzoneRect, Cropzone.isValid, h1, h2]

/-- C2 witness: a concrete valid zone is returned as its rectangle. -/
theorem c2_amended_witness :
    getCropzoneRect (some ⟨none, 1, 2, 3, 4⟩) = Except.ok (some ⟨1, 2, 3, 4⟩) :=
  (c2_amended ⟨none, 1, 2, 3, 4⟩).2.1 (by norm_num) (by norm_num)

/-- C5 counterexample: `setCropzonePosition` applies the newly computed
rectangle but performs no `updateUI` invocation at all, at a concrete
zone, position and canvas. -/
theorem c5_counterexample :
    (setCropzonePosition ⟨none, 0, 0, 1, 1⟩ none 800 600).2 = [] := rfl

/-- C5 amended: a drag-move past the movement threshold and every
`setCropzoneRect` call invoke `updateUI` with the newly computed settings,
but `setCropzonePosition` never invokes `updateUI`. -/
theorem c5_amended :
    (∀ (z : Cropzone) (startX startY x y W H : ℚ) (shift : Bool),
        (onFabricMouseMoveRun z startX startY x y W H shift).2 =
          if |x - startX| + |y - startY| > MOUSE_MOVE_THRESHOLD then
            [UIEvent.fromDrag (_calcRectDimensionFromPoint x y startX startY W H shift)]
          else []) ∧
    (∀ (z : Cropzone) (ratio : Option ℚ) (W H : ℚ) (c : Option CropDefaults),
        (setCropzoneRectRun z ratio W H c).2 =
          [UIEvent.fromCrop (setCropzoneRectSettings ratio W H c)]) ∧
    (∀ (z : Cropzone) (p : Option PosInfo) (W H : ℚ),
        (setCropzonePosition z p W H).2 = []) := by
  refine ⟨fun z ax ay x y W H shift => ?_, fun z ratio W H c => rfl, fun z p W H => rfl⟩
  unfold onFabricMouseMoveRun
  split <;> rfl

/-- C7 counterexample: a zone tagged with preset ratio 1 still carries
preset ratio 1 after a drag-move update past the threshold (the drag
settings carry no presetRatio key, so the tag is not cleared). -/
theorem c7_counterexample :
    (onFabricMouseMoveRun ⟨some 1, 0, 0, 1, 1⟩ 0 0 100 100 800 600 false).1 =
      ⟨some 1, 0, 0, 100, 100⟩ := by
  norm_num [onFabricMouseMoveRun, MOUSE_MOVE_THRESHOLD, _calcRectDimensionFromPoint, clamp,
    max_def, min_def, applyDragSettings]

/-- C7 amended: a pointer-move during a drag never changes the zone's
presetRatio field: the settings object written by the drag carries only
geometry, so the preset tag is left as it was, not cleared to null. -/
theorem c7_amended (z : Cropzone) (startX startY x y W H : ℚ) (shift : Bool) :
    ((onFabricMouseMoveRun z startX startY x y W H shift).1).presetRatio = z.presetRatio := by
  unfold onFabricMouseMoveRun
  split <;> rfl

/-- C10: calling `setCropzoneRect` with preset ratio 0 is routed by the
truthiness test to the default-size branch, exactly as an absent ratio is,
so the zone receives the centered default crop size (on a plain 800 by 600
canvas: the full canvas, left 0, top 0, no preset tag) and not the
zero-ratio preset rectangle. -/
theorem c10_zero_ratio_default (W H : ℚ) (c : Option CropDefaults) :
    setCropzoneRectSettings (some 0) W H c = _getDefaultCropSize W H c ∧
    setCropzoneRectSettings none W H c = _getDefaultCropSize W H c ∧
    setCropzoneRectSettings (some 0) 800 600 none = ⟨none, 0, 0, 800, 600⟩ ∧
    setCropzoneRectSettings (some 0) 800 600 none ≠ _getPresetPropertiesForCropSize 0 800 600 := by
  refine ⟨by norm_num [setCropzoneRectSettings, jsTruthy], by rfl, ?_, ?_⟩
  · norm_num [setCropzoneRectSettings, jsTruthy, _getDefaultCropSize, Option.getD]
  · norm_num [setCropzoneRectSettings, jsTruthy, _getDefaultCropSize, Option.getD,
      _getPresetPropertiesForCropSize, getScale, fixFloatingPoint]

/-- C8: `setCropzonePosition` applies `_getPresetProperties(posInfo)`: missing
fields default to left 0, top 0, width canvasWidth, height canvasHeight; the
applied left and top are clamped to be nonnegative; the applied width is at
most canvasWidth minus the (defaulted) left and the applied height is at most
canvasHeight minus the (defaulted) left (left, not top, in this reference
behavior); and the applied presetRatio is width divided by height of the
defaulted inputs. -/
theorem c8_position_rect (posInfo : Option PosInfo) (W H : ℚ)
    (hh : ((posInfo.getD ⟨none, none, none, none⟩).height.getD H) ≠ 0) :
    let p := posInfo.getD ⟨none, none, none, none⟩
    let l := p.left.getD 0
    let t := p.top.getD 0
    let w := p.width.getD W
    let h := p.height.getD H
    let r := _getPresetProperties posInfo W H
    r.left = max l 0 ∧ r.top = max t 0 ∧ 0 ≤ r.left ∧ 0 ≤ r.top ∧
      r.width ≤ W - l ∧ r.height ≤ H - l ∧ r.presetRatio = some (w / h) ∧
      (applyCropSettings ⟨none, 0, 0, 1, 1⟩ r).presetRatio = some (w / h) := by
  intro p l t w h r
  refine ⟨rfl, rfl, le_max_right _ _, le_max_right _ _, min_le_right _ _, min_le_right _ _,
    rfl, rfl⟩

/-- C8 witness: a concrete in-range position object is clamped and tagged as
stated. -/
theorem c8_position_rect_witness :
    let p := ((some (⟨some 10, some 20, some 100, some 50⟩ : PosInfo)).getD
      ⟨none, none, none, none⟩)
    let l := p.left.getD 0
    let t := p.top.getD 0
    let w := p.width.getD (800 : ℚ)
    let h := p.height.getD (600 : ℚ)
    let r := _getPresetProperties (some ⟨some 10, some 20, some 100, some 50⟩) 800 600
    r.left = max l 0 ∧ r.top = max t 0 ∧ 0 ≤ r.left ∧ 0 ≤ r.top ∧
      r.width ≤ 800 - l ∧ r.height ≤ 600 - l ∧ r.presetRatio = some (w / h) ∧
      (applyCropSettings ⟨none, 0, 0, 1, 1⟩ r).presetRatio = some (w / h) :=
  c8_position_rect (some ⟨some 10, some 20, some 100, some 50⟩) 800 600 (by norm_num)

/-- C1 counterexample: with the aspect-lock flag set, anchor (0, 500) and
pointer (300, 600) — both inside the 800 by 600 canvas — produce the
rectangle left 0, top 500, width 300, height 300, whose bottom edge
top + height = 800 exceeds the canvas height 600. -/
theorem c1_counterexample :
    ((0 : ℚ) ≤ 0 ∧ (0 : ℚ) ≤ 800 ∧ (0 : ℚ) ≤ 500 ∧ (500 : ℚ) ≤ 600 ∧
      (0 : ℚ) ≤ 300 ∧ (300 : ℚ) ≤ 800 ∧ (0 : ℚ) ≤ 600 ∧ (600 : ℚ) ≤ 600) ∧
    _calcRectDimensionFromPoint 300 600 0 500 800 600 true = ⟨0, 500, 300, 300⟩ ∧
    ¬((_calcRectDimensionFromPoint 300 600 0 500 800 600 true).top +
        (_calcRectDimensionFromPoint 300 600 0 500 800 600 true).height ≤ 600) := by
  norm_num [_calcRectDimensionFromPoint, clamp, max_def, min_def]

/-- C1 amended: with the aspect-lock flag off, for every anchor and pointer
inside the canvas the computed rectangle is fully contained in the canvas
bounds; with the flag on the expansion step can push the rectangle outside
(see the counterexample). -/
theorem c1_amended (x y startX startY W H : ℚ)
    (hsx0 : 0 ≤ startX) (hsxW : startX ≤ W) (hsy0 : 0 ≤ startY) (hsyH : startY ≤ H)
    (hx0 : 0 ≤ x) (hxW : x ≤ W) (hy0 : 0 ≤ y) (hyH : y ≤ H) :
    0 ≤ (_calcRectDimensionFromPoint x y startX startY W H false).left ∧
      0 ≤ (_calcRectDimensionFromPoint x y startX startY W H false).top ∧
      (_calcRectDimensionFromPoint x y startX startY W H false).left +
        (_calcRectDimensionFromPoint x y startX startY W H false).width ≤ W ∧
      (_calcRectDimensionFromPoint x y startX startY W H false).top +
        (_calcRectDimensionFromPoint x y startX startY W H false).height ≤ H := by
  simp only [_calcRectDimensionFromPoint, clamp, Bool.false_eq_true, if_false]
  refine ⟨le_max_left 0 _, le_max_left 0 _, ?_, ?_⟩
  · have harith : max 0 (min x startX) + (max startX (min x W) - max 0 (min x startX)) =
        max startX (min x W) := by ring
    rw [harith]
    exact max_le hsxW (min_le_right x W)
  · have harith : max 0 (min y startY) + (max startY (min y H) - max 0 (min y startY)) =
        max startY (min y H) := by ring
    rw [harith]
    exact max_le hsyH (min_le_right y H)

/-- C1 witness: the containment bounds at a concrete in-bounds drag. -/
theorem c1_amended_witness :
    0 ≤ (_calcRectDimensionFromPoint 50 50 100 100 800 600 false).left ∧
      0 ≤ (_calcRectDimensionFromPoint 50 50 100 100 800 600 false).top ∧
      (_calcRectDimensionFromPoint 50 50 100 100 800 600 false).left +
        (_calcRectDimensionFromPoint 50 50 100 100 800 600 false).width ≤ 800 ∧
      (_calcRectDimensionFromPoint 50 50 100 100 800 600 false).top +
        (_calcRectDimensionFromPoint 50 50 100 100 800 600 false).height ≤ 600 :=
  c1_amended 50 50 100 100 800 600 (by norm_num) (by norm_num) (by norm_num) (by norm_num)
    (by norm_num) (by norm_num) (by norm_num) (by norm_num)

theorem ite_gt_left_eq_max (w h : ℚ) : (if w > h then w else h) = max w h := by
  rcases le_or_lt w h with hle | hlt
  · rw [if_neg (not_lt.mpr hle), max_eq_right hle]
  · rw [if_pos hlt, max_eq_left hlt.le]

/-- C3: the source drag computation agrees with the spec's reference
definition for all inputs and both aspect-lock values, and the spec's
scenario holds: a drag from anchor (100, 100) to (50, 50) with aspect lock
off yields left 50, top 50, width 50, height 50. -/
theorem c3_drag_matches_spec :
    (∀ (x y ax ay W H : ℚ) (lock : Bool),
        _calcRectDimensionFromPoint x y ax ay W H lock = rectFromDragSpec x y ax ay W H lock) ∧
    _calcRectDimensionFromPoint 50 50 100 100 800 600 false = ⟨50, 50, 50, 50⟩ := by
  constructor
  · intro x y ax ay W H lock
    cases lock
    · rfl
    · simp only [_calcRectDimensionFromPoint, rectFromDragSpec, if_true,
        ite_gt_left_eq_max, ge_iff_le]
      rw [max_comm (clamp y ay H - clamp y 0 ay) (clamp x ax W - clamp x 0 ax)]
  · norm_num [_calcRectDimensionFromPoint, clamp, max_def, min_def]

theorem getScale_pos (a orig : ℚ) (horig : 0 < orig) : 0 < getScale a orig := by
  unfold getScale
  split
  · rename_i h
    exact div_pos horig (horig.trans h)
  · norm_num

theorem getScale_le_one (a orig : ℚ) (horig : 0 < orig) : getScale a orig ≤ 1 := by
  unfold getScale
  split
  · rename_i h
    exact le_of_lt ((div_lt_one (horig.trans h)).mpr h)
  · exact le_refl 1

theorem mul_getScale_le (a orig : ℚ) (horig : 0 < orig) (ha : 0 ≤ a) :
    a * getScale a orig ≤ orig := by
  unfold getScale
  split
  · rename_i h
    have h0 : a ≠ 0 := (horig.trans h).ne'
    have hcancel : a * (orig / a) = orig := by field_simp
    rw [hcancel]
  · rename_i h
    push_neg at h
    simpa using h

theorem preset_pipeline (ratio W H S : ℚ) (hr : 0 < ratio) (hW : 0 < W) (hH : 0 < H)
    (hS : 0 < S) :
    S * ratio * getScale (S * ratio) W * getScale (S * getScale (S * ratio) W) H =
        ratio * (S * getScale (S * ratio) W * getScale (S * getScale (S * ratio) W) H) ∧
      0 < S * getScale (S * ratio) W * getScale (S * getScale (S * ratio) W) H ∧
      S * ratio * getScale (S * ratio) W * getScale (S * getScale (S * ratio) W) H ≤ W ∧
      S * getScale (S * ratio) W * getScale (S * getScale (S * ratio) W) H ≤ H := by
  set k1 := getScale (S * ratio) W with hk1def
  set k2 := getScale (S * k1) H with hk2def
  have hk1pos : 0 < k1 := by rw [hk1def]; exact getScale_pos (S * ratio) W hW
  have hk2pos : 0 < k2 := by rw [hk2def]; exact getScale_pos (S * k1) H hH
  have hk2le : k2 ≤ 1 := by rw [hk2def]; exact getScale_le_one (S * k1) H hH
  have hw2le : S * ratio * k1 ≤ W := by
    rw [hk1def]
    exact mul_getScale_le (S * ratio) W hW (by positivity)
  have hh3le : S * k1 * k2 ≤ H := by
    rw [hk2def]
    exact mul_getScale_le (S * k1) H hH (mul_pos hS hk1pos).le
  refine ⟨by ring, mul_pos (mul_pos hS hk1pos) hk2pos, ?_, hh3le⟩
  have hstep : S * ratio * k1 * k2 ≤ S * ratio * k1 * 1 :=
    mul_le_mul_of_nonneg_left hk2le (by positivity)
  calc S * ratio * k1 * k2 ≤ S * ratio * k1 * 1 := hstep
    _ = S * ratio * k1 := mul_one _
    _ ≤ W := hw2le

/-- C4: for every positive ratio on a positive canvas, the preset-ratio
computation returns a rectangle whose width over height is exactly the ratio
(over exact arithmetic), that fits in the canvas, is centered (left equals
half of canvasWidth minus width, top equals half of canvasHeight minus
height, both nonnegative) and carries the ratio as its preset tag; for
ratio 1 on an 800 by 600 canvas it yields width = height = 600, left = 100,
top = 0. -/
theorem c4_preset_ratio_rect (ratio W H : ℚ) (hr : 0 < ratio) (hW : 0 < W) (hH : 0 < H) :
    (_getPresetPropertiesForCropSize ratio W H).width /
        (_getPresetPropertiesForCropSize ratio W H).height = ratio ∧
      0 < (_getPresetPropertiesForCropSize ratio W H).height ∧
      (_getPresetPropertiesForCropSize ratio W H).width ≤ W ∧
      (_getPresetPropertiesForCropSize ratio W H).height ≤ H ∧
      0 ≤ (_getPresetPropertiesForCropSize ratio W H).left ∧
      0 ≤ (_getPresetPropertiesForCropSize ratio W H).top ∧
      (_getPresetPropertiesForCropSize ratio W H).left =
        (W - (_getPresetPropertiesForCropSize ratio W H).width) / 2 ∧
      (_getPresetPropertiesForCropSize ratio W H).top =
        (H - (_getPresetPropertiesForCropSize ratio W H).height) / 2 ∧
      (_getPresetPropertiesForCropSize ratio W H).presetRatio = some ratio ∧
      _getPresetPropertiesForCropSize 1 800 600 = ⟨some 1, 100, 0, 600, 600⟩ := by
  have hS : 0 < (if W ≥ H then W else H) := by split <;> assumption
  obtain ⟨heq, hpos, hlew, hleh⟩ :=
    preset_pipeline ratio W H (if W ≥ H then W else H) hr hW hH hS
  have hwidth : (_getPresetPropertiesForCropSize ratio W H).width =
      (if W ≥ H then W else H) * ratio * getScale ((if W ≥ H then W else H) * ratio) W *
        getScale ((if W ≥ H then W else H) *
          getScale ((if W ≥ H then W else H) * ratio) W) H := rfl
  have hheight : (_getPresetPropertiesForCropSize ratio W H).height =
      (if W ≥ H then W else H) * getScale ((if W ≥ H then W else H) * ratio) W *
        getScale ((if W ≥ H then W else H) *
          getScale ((if W ≥ H then W else H) * ratio) W) H := rfl
  have hhpos : 0 < (_getPresetPropertiesForCropSize ratio W H).height := by
    rw [hheight]; exact hpos
  have hwleW : (_getPresetPropertiesForCropSize ratio W H).width ≤ W := by
    rw [hwidth]; exact hlew
  have hhleH : (_getPresetPropertiesForCropSize ratio W H).height ≤ H := by
    rw [hheight]; exact hleh
  refine ⟨?_, hhpos, hwleW, hhleH, ?_, ?_, rfl, rfl, rfl, ?_⟩
  · rw [div_eq_iff hhpos.ne', hwidth, hheight]
    exact heq
  · show 0 ≤ (W - (_getPresetPropertiesForCropSize ratio W H).width) / 2
    have hnn : 0 ≤ W - (_getPresetPropertiesForCropSize ratio W H).width :=
      sub_nonneg.mpr hwleW
    positivity
  · show 0 ≤ (H - (_getPresetPropertiesForCropSize ratio W H).height) / 2
    have hnn : 0 ≤ H - (_getPresetPropertiesForCropSize ratio W H).height :=
      sub_nonneg.mpr hhleH
    positivity
  · norm_num [_getPresetPropertiesForCropSize, getScale, fixFloatingPoint]

/-- C4 witness: the guarantees at ratio 1 on the 800 by 600 canvas. -/
theorem c4_preset_ratio_rect_witness :
    (_getPresetPropertiesForCropSize 1 800 600).width /
        (_getPresetPropertiesForCropSize 1 800 600).height = 1 ∧
      0 < (_getPresetPropertiesForCropSize 1 800 600).height ∧
      (_getPresetPropertiesForCropSize 1 800 600).width ≤ 800 ∧
      (_getPresetPropertiesForCropSize 1 800 600).height ≤ 600 ∧
      0 ≤ (_getPresetPropertiesForCropSize 1 800 600).left ∧
      0 ≤ (_getPresetPropertiesForCropSize 1 800 600).top ∧
      (_getPresetPropertiesForCropSize 1 800 600).left =
        (800 - (_getPresetPropertiesForCropSize 1 800 600).width) / 2 ∧
      (_getPresetPropertiesForCropSize 1 800 600).top =
        (600 - (_getPresetPropertiesForCropSize 1 800 600).height) / 2 ∧
      (_getPresetPropertiesForCropSize 1 800 600).presetRatio = some 1 ∧
      _getPresetPropertiesForCropSize 1 800 600 = ⟨some 1, 100, 0, 600, 600⟩ :=
  c4_preset_ratio_rect 1 800 600 (by norm_num) (by norm_num) (by norm_num)
